import Mathlib

/-!
Verification of the question-store layer of the RustWebDev repository.

The repository contains three evolutions of the service:
* `RustBookCode/src/main.rs` — an in-memory store: `HashMap<QuestionId(String), Question>`
  behind a `tokio::sync::RwLock`, with axum handlers `get_questions`, `get_question`,
  `post_question`, `put_question`, `delete_question`.
* `src/src/api.rs` + `src/src/database.rs` — a Postgres-backed store whose handlers take an
  `IdParam { id: Option<i32> }` and filter ranges by direct integer comparison.
* `backend/src/question.rs` / `backend/src/database.rs` — the later evolution with
  `QuestionId(i32)` parsed via `i32::from_str`.

The definitions below are shallow embeddings of those functions: the in-memory
`HashMap` is an association list with the usual replace-on-insert semantics, SQL
statements over the `questions` table become list operations keyed by the integer id,
and every `Option::unwrap`/`parse().unwrap()` that can fail becomes an explicit
`panic` result.
-/

set_option autoImplicit false

namespace RustWebDev

/-- Error kinds of Rust's `core::num::ParseIntError`, as observable through `Display`. -/
inductive ParseIntErr where
  | empty
  | invalidDigit
  | posOverflow
  | negOverflow
deriving DecidableEq

/-- `Display` of `ParseIntError` (the messages printed by `e.to_string()` in Rust). -/
def ParseIntErr.message : ParseIntErr → String
  | .empty => "cannot parse integer from empty string"
  | .invalidDigit => "invalid digit found in string"
  | .posOverflow => "number too large to fit in target type"
  | .negOverflow => "number too small to fit in target type"

/-- Decimal value of a digit string (most significant digit first). -/
def digitsToNat (l : List Char) : Nat :=
  l.foldl (fun acc c => acc * 10 + (c.toNat - 48)) 0

/-- Largest value of Rust's `usize` on the 64-bit targets this repository builds for. -/
def usizeMax : Nat := 2 ^ 64 - 1

/-- Digit-run part of `usize::from_str`: all characters must be ASCII digits and the
value must fit in `usize`. -/
def parseUsizeDigits (l : List Char) : Except ParseIntErr Nat :=
  if l.isEmpty then .error .invalidDigit
  else if l.all Char.isDigit then
    if digitsToNat l ≤ usizeMax then .ok (digitsToNat l)
    else .error .posOverflow
  else .error .invalidDigit

/-- Rust's `str::parse::<usize>()`: an optional leading `+`, then decimal digits.
A leading `-` is an invalid digit for an unsigned type. -/
def parseUsize (s : String) : Except ParseIntErr Nat :=
  match s.data with
  | [] => .error .empty
  | c :: cs => if c = '+' then parseUsizeDigits cs else parseUsizeDigits (c :: cs)

def i32Min : Int := -(2 ^ 31)
def i32Max : Int := 2 ^ 31 - 1

/-- Digit-run part of `i32::from_str` with the sign already consumed. -/
def parseI32Digits (l : List Char) (neg : Bool) : Except ParseIntErr Int :=
  if l.isEmpty then .error .invalidDigit
  else if l.all Char.isDigit then
    if neg then
      if -(digitsToNat l : Int) < i32Min then .error .negOverflow
      else .ok (-(digitsToNat l : Int))
    else
      if (digitsToNat l : Int) > i32Max then .error .posOverflow
      else .ok (digitsToNat l : Int)
  else .error .invalidDigit

/-- Rust's `str::parse::<i32>()`: optional `+` or `-` sign, then decimal digits. -/
def parseI32 (s : String) : Except ParseIntErr Int :=
  match s.data with
  | [] => .error .empty
  | c :: cs =>
    if c = '+' then parseI32Digits cs false
    else if c = '-' then parseI32Digits cs true
    else parseI32Digits (c :: cs) false

/-- `Except.ok`-ness as a Bool (Rust's `Result::is_ok`). -/
def exceptOk {ε α : Type} : Except ε α → Bool
  | .ok _ => true
  | .error _ => false

/-- `QuestionId` of `RustBookCode/src/main.rs` and `src/src/question.rs`:
a newtype over the raw `String` (`pub struct QuestionId(pub String)`). -/
structure QuestionId where
  val : String
deriving DecidableEq

/-- `Question` of `RustBookCode/src/main.rs`: id, title, content and optional tags. -/
structure Question where
  id : QuestionId
  title : String
  content : String
  tags : Option (List String)
deriving DecidableEq

/-- The io-error payload of the two `FromStr` implementations
(`Error::new(ErrorKind::InvalidInput, msg)`). -/
structure IdError where
  msg : String
deriving DecidableEq

/-- `FromStr for QuestionId` in `RustBookCode/src/main.rs` and `src/src/question.rs`:
succeeds with the raw string unless it is empty. -/
def questionIdFromStr (s : String) : Except IdError QuestionId :=
  match s.isEmpty with
  | false => .ok ⟨s⟩
  | true => .error ⟨"No id provided"⟩

/-- `QuestionId` of `backend/src/question.rs`: `pub struct QuestionId(pub i32)`. -/
structure QuestionIdI32 where
  val : Int
deriving DecidableEq

/-- `FromStr for QuestionId` in `backend/src/question.rs`: whatever `s.parse::<i32>()`
accepts, with no further check. -/
def questionIdFromStrI32 (s : String) : Except IdError QuestionIdI32 :=
  match parseI32 s with
  | .ok n => .ok ⟨n⟩
  | .error _ => .error ⟨"Invalid id"⟩

/-- The in-memory store of `RustBookCode`: the contents of the
`HashMap<QuestionId, Question>`, as an association list with pairwise distinct keys. -/
abbrev Store := List (QuestionId × Question)

/-- `HashMap::insert`: replace the binding of `k` if present, otherwise add it. -/
def mapInsert (k : QuestionId) (v : Question) : Store → Store
  | [] => [(k, v)]
  | (k', v') :: rest => if k' = k then (k, v) :: rest else (k', v') :: mapInsert k v rest

/-- `HashMap::get`. -/
def mapLookup (k : QuestionId) : Store → Option Question
  | [] => none
  | (k', v') :: rest => if k' = k then some v' else mapLookup k rest

/-- `HashMap::remove` (value dropped). -/
def mapRemove (k : QuestionId) : Store → Store
  | [] => []
  | (k', v') :: rest => if k' = k then mapRemove k rest else (k', v') :: mapRemove k rest

/-- `AppState::get_question` (RustBookCode): `self.questions.read().await.get(id).cloned()`. -/
def getQuestion (st : Store) (id : QuestionId) : Option Question :=
  mapLookup id st

/-- `AppState::add_question` (RustBookCode): unconditional
`insert(question.id.clone(), question)` — no duplicate check. -/
def addQuestion (st : Store) (q : Question) : Store :=
  mapInsert q.id q st

/-- `AppState::delete_question` (RustBookCode): `remove(id)`. -/
def deleteQuestion (st : Store) (id : QuestionId) : Store :=
  mapRemove id st

/-- `AppState::update_question` (RustBookCode): `insert(id.clone(), question)`. -/
def updateQuestion (st : Store) (id : QuestionId) (q : Question) : Store :=
  mapInsert id q st

/-- The records currently stored (`list_all` of the spec: the values of the map). -/
def listAll (st : Store) : List Question :=
  st.map Prod.snd

def missingParameterMsg : String := "Missing parameter"
def questionNotFoundMsg : String := "Question not found"

/-- Body of `ApiError::ParseError(e).to_string()`. -/
def parseErrorMsg (e : ParseIntErr) : String :=
  "Cannot parse parameter: " ++ e.message

/-- `Question` of `backend/src/question.rs` / the view `src/src/api.rs` manipulates:
a native integer id. -/
structure QuestionD where
  id : Int
  title : String
  content : String
  tags : Option (List String)
deriving DecidableEq

/-- `Answer` of `backend/src/database.rs`. -/
structure AnswerD where
  content : String
  questionId : Int
deriving DecidableEq

/-- `UpdateQuestion` of `backend/src/question.rs`: the PUT body, id optional. -/
structure UpdateQuestion where
  id : Option Int
  title : String
  content : String
  tags : Option (List String)
deriving DecidableEq

/-- Response bodies the handlers can produce, at the abstraction level of the data
serialized to JSON (map contents, vector contents, or a plain text message). -/
inductive Body where
  | text (s : String)
  | question (q : Question)
  | questionMap (qs : Store)
  | questionList (qs : List QuestionD)
  | answerList (l : List AnswerD)
deriving DecidableEq

/-- Result of running a handler: either an HTTP response or a Rust panic
(an `unwrap` of `None`/`Err`). -/
inductive HResult where
  | panic
  | resp (status : Nat) (body : Body)
deriving DecidableEq

/-- `post_question` (RustBookCode): always stores and answers 200 "Question added". -/
def postQuestion (st : Store) (q : Question) : Store × HResult :=
  (addQuestion st q, .resp 200 (.text "Question added"))

/-- `put_question` (RustBookCode): look the id up first; 404 when absent, otherwise
replace the whole record. -/
def putQuestion (st : Store) (q : Question) : Store × HResult :=
  match getQuestion st q.id with
  | some _ => (updateQuestion st q.id q, .resp 200 (.text "Question updated"))
  | none => (st, .resp 404 (.text questionNotFoundMsg))

/-- `delete_question` (RustBookCode): 400 on a missing id parameter, 404 when the id
is absent, otherwise remove and answer 200. -/
def deleteQuestionHandler (st : Store) (idp : Option String) : Store × HResult :=
  match idp with
  | some i =>
    match getQuestion st ⟨i⟩ with
    | some _ => (deleteQuestion st ⟨i⟩, .resp 200 (.text "Question deleted"))
    | none => (st, .resp 404 (.text questionNotFoundMsg))
  | none => (st, .resp 400 (.text missingParameterMsg))

/-- `get_question` (RustBookCode): 400 on a missing id parameter, else lookup. -/
def getQuestionHandler (st : Store) (idp : Option String) : HResult :=
  match idp with
  | some i =>
    match getQuestion st ⟨i⟩ with
    | some q => .resp 200 (.question q)
    | none => .resp 404 (.text questionNotFoundMsg)
  | none => .resp 400 (.text missingParameterMsg)

/-- The `for (id, question) in questions.iter()` loop of `get_questions`
(RustBookCode, lines 283–288): each stored id is re-parsed with
`id.0.parse::<usize>().unwrap()` — `none` here is that unwrap panicking — and
in-range entries are inserted into the result map. -/
def rangeLoop (startIdx endIdx : Nat) (acc : Store) : Store → Option Store
  | [] => some acc
  | (id, q) :: rest =>
    match parseUsize id.val with
    | .error _ => none
    | .ok n =>
      if startIdx ≤ n ∧ n ≤ endIdx then rangeLoop startIdx endIdx (mapInsert id q acc) rest
      else rangeLoop startIdx endIdx acc rest

/-- `get_questions` (RustBookCode): all records when neither bound is given; otherwise
`start` is checked (presence, then `usize` parse), then `end`, then the scan. -/
def getQuestionsRBC (st : Store) (start stop : Option String) : HResult :=
  if start.isNone && stop.isNone then .resp 200 (.questionMap st)
  else
    match start with
    | none => .resp 400 (.text missingParameterMsg)
    | some sv =>
      match parseUsize sv with
      | .error e => .resp 400 (.text (parseErrorMsg e))
      | .ok sN =>
        match stop with
        | none => .resp 400 (.text missingParameterMsg)
        | some ev =>
          match parseUsize ev with
          | .error e => .resp 400 (.text (parseErrorMsg e))
          | .ok eN =>
            match rangeLoop sN eN [] st with
            | none => .panic
            | some r => .resp 200 (.questionMap r)

/-- The `questions` table rows visible to `src/src/api.rs` through
`get_all_questions`. -/
abbrev Db := List QuestionD

/-- `AppState::get_question` (database-backed): `SELECT ... WHERE id = $1` via
`fetch_one` — the first row whose id matches, and `none` (the `Err` case) when no
row matches. -/
def dbGetQuestion (db : Db) (i : Int) : Option QuestionD :=
  match db with
  | [] => none
  | r :: rest => if r.id = i then some r else dbGetQuestion rest i

/-- `AppState::delete_question`: `DELETE FROM questions WHERE id = $1`. -/
def dbDeleteQuestion (db : Db) (i : Int) : Db :=
  db.filter (fun q => !(q.id == i))

/-- `AppState::update_question`: `UPDATE questions SET title, content, tags WHERE id`;
every matching row keeps its id and takes the new field values. -/
def dbUpdateQuestion (db : Db) (i : Int) (q : QuestionD) : Db :=
  db.map (fun r => if r.id = i then QuestionD.mk r.id q.title q.content q.tags else r)

/-- `put_question` (`src/src/api.rs`): id from the query parameter, else from the
body, else 400; existence check first; then a whole-record replace built from the
`UpdateQuestion` body. -/
def putQuestionApi (db : Db) (idp : Option Int) (uq : UpdateQuestion) : Db × HResult :=
  match (match idp with | some i => some i | none => uq.id) with
  | none => (db, .resp 400 (.text missingParameterMsg))
  | some qid =>
    match dbGetQuestion db qid with
    | none => (db, .resp 404 (.text questionNotFoundMsg))
    | some _ =>
      (dbUpdateQuestion db qid (QuestionD.mk qid uq.title uq.content uq.tags),
        .resp 200 (.text "Question updated"))

/-- `delete_question` (`src/src/api.rs`, lines 105–134): `QuestionId(id.unwrap())`
panics when the id query parameter is absent; otherwise existence check then delete. -/
def deleteQuestionApi (db : Db) (idp : Option Int) : Db × HResult :=
  match idp with
  | none => (db, .panic)
  | some i =>
    match dbGetQuestion db i with
    | none => (db, .resp 404 (.text questionNotFoundMsg))
    | some _ => (dbDeleteQuestion db i, .resp 200 (.text "Question deleted"))

/-- The `answers` table. -/
abbrev AnswerTable := List AnswerD

/-- `SELECT * FROM answers WHERE corresponding_question = $1` via `fetch_all`. -/
def dbGetAnswers (t : AnswerTable) (i : Int) : List AnswerD :=
  t.filter (fun a => a.questionId == i)

/-- `get_answers` (`src/src/api.rs`, lines 396–414): `QuestionId(id.unwrap())`
panics when the id query parameter is absent. -/
def getAnswersApi (t : AnswerTable) (idp : Option Int) : HResult :=
  match idp with
  | none => .panic
  | some i => .resp 200 (.answerList (dbGetAnswers t i))

/-- The per-record comparison of the `src/src/api.rs` scan:
`question.id.0 >= start_index && question.id.0 <= end_index` on native integer ids. -/
def dIdInRange (sI eI : Int) (q : QuestionD) : Bool :=
  decide (sI ≤ q.id ∧ q.id ≤ eI)

/-- `get_questions` (`src/src/api.rs`, lines 55–96): all records when neither bound is
given, 400 when exactly one is given, otherwise a linear scan comparing each native
integer id against the inclusive bounds. -/
def getQuestionsApi (db : Db) (start stop : Option Int) : HResult :=
  if start.isNone && stop.isNone then .resp 200 (.questionList db)
  else
    match start with
    | none => .resp 400 (.text missingParameterMsg)
    | some sN =>
      match stop with
      | none => .resp 400 (.text missingParameterMsg)
      | some eN => .resp 200 (.questionList (db.filter (dIdInRange sN eN)))

/-- The predicate the range scan of `getQuestionsRBC` implements: the stored id
parses and its numeric value lies in `[startIdx, endIdx]`. -/
def idInRange (startIdx endIdx : Nat) (p : QuestionId × Question) : Bool :=
  match parseUsize p.1.val with
  | .ok n => decide (startIdx ≤ n ∧ n ≤ endIdx)
  | .error _ => false

/-- The key-consistency invariant of the in-memory store: every stored record is
keyed by its own id field. -/
def KeyConsistent (st : Store) : Prop :=
  ∀ p ∈ st, p.2.id = p.1

/-- State of the database-backed questions table: its rows together with the next
serial value of the id column. -/
structure DbState where
  rows : Db
  nextId : Int
deriving DecidableEq

/-- Modelled from the spec: the id column of the `questions` table is
store-assigned in this mode ("identifier either caller-supplied or store-assigned
depending on mode", spec §3) — the migration defining the serial id column is not
under src. The statement itself is `AppState::add_question`
(`backend/src/database.rs`, lines 117–130): `INSERT INTO questions (title,
content, tags) VALUES ($1, $2, $3)` — the caller-supplied `question.id` is never
bound, so the new row takes the next serial id and the insert always succeeds. -/
def dbAddQuestion (s : DbState) (q : QuestionD) : DbState :=
  ⟨s.rows ++ [QuestionD.mk s.nextId q.title q.content q.tags], s.nextId + 1⟩

theorem mapLookup_insert_self (k : QuestionId) (v : Question) (st : Store) :
    mapLookup k (mapInsert k v st) = some v := by
  induction st with
  | nil => simp [mapInsert, mapLookup]
  | cons p rest ih =>
    obtain ⟨k', v'⟩ := p
    by_cases h : k' = k
    · simp [mapInsert, mapLookup, h]
    · simp [mapInsert, mapLookup, h, ih]

theorem mapLookup_insert_ne (k j : QuestionId) (v : Question) (st : Store) (hj : j ≠ k) :
    mapLookup j (mapInsert k v st) = mapLookup j st := by
  have hk : ¬k = j := fun hh => hj hh.symm
  induction st with
  | nil => simp [mapInsert, mapLookup, hk]
  | cons p rest ih =>
    obtain ⟨k', v'⟩ := p
    by_cases h : k' = k
    · subst h
      simp [mapInsert, mapLookup, hk]
    · simp [mapInsert, mapLookup, h, ih]

theorem mapLookup_remove_self (k : QuestionId) (st : Store) :
    mapLookup k (mapRemove k st) = none := by
  induction st with
  | nil => simp [mapRemove, mapLookup]
  | cons p rest ih =>
    obtain ⟨k', v'⟩ := p
    by_cases h : k' = k
    · simp [mapRemove, h, ih]
    · simp [mapRemove, mapLookup, h, ih]

theorem mem_listAll_of_lookup (k : QuestionId) (v : Question) (st : Store)
    (h : mapLookup k st = some v) : v ∈ listAll st := by
  induction st with
  | nil => simp [mapLookup] at h
  | cons p rest ih =>
    obtain ⟨k', v'⟩ := p
    by_cases hk : k' = k
    · simp [mapLookup, hk] at h
      simp [listAll, h]
    · simp [mapLookup, hk] at h
      simp [listAll] at ih ⊢
      exact Or.inr (ih h)

theorem keyConsistent_mapInsert (st : Store) (k : QuestionId) (v : Question)
    (h : KeyConsistent st) (hv : v.id = k) : KeyConsistent (mapInsert k v st) := by
  induction st with
  | nil =>
    intro p hp
    simp [mapInsert] at hp
    simp [hp, hv]
  | cons p0 rest ih =>
    obtain ⟨k', v'⟩ := p0
    intro p hp
    by_cases hk : k' = k
    · simp [mapInsert, hk] at hp
      rcases hp with hp | hp
      · simp [hp, hv]
      · exact h p (by simp [hp])
    · simp [mapInsert, hk] at hp
      rcases hp with hp | hp
      · exact h p (by simp [hp])
      · exact ih (fun p hp => h p (by simp [hp])) p hp

theorem keyConsistent_mapRemove (st : Store) (k : QuestionId)
    (h : KeyConsistent st) : KeyConsistent (mapRemove k st) := by
  induction st with
  | nil => intro p hp; simp [mapRemove] at hp
  | cons p0 rest ih =>
    obtain ⟨k', v'⟩ := p0
    intro p hp
    by_cases hk : k' = k
    · simp [mapRemove, hk] at hp
      exact ih (fun p hp => h p (by simp [hp])) p hp
    · simp [mapRemove, hk] at hp
      rcases hp with hp | hp
      · exact h p (by simp [hp])
      · exact ih (fun p hp => h p (by simp [hp])) p hp

/-- Claim C2 (amended): the in-memory insert never fails with a duplicate-identifier
error — `add_question` is an unconditional `HashMap::insert`, so inserting a record
whose identifier is already present silently replaces the stored record. Every
insert returns 200 "Question added" and the inserted record is immediately visible
to `get` and `list_all`. -/
theorem insert_is_upsert_and_visible (st : Store) (q : Question) :
    (postQuestion st q).2 = .resp 200 (.text "Question added") ∧
    getQuestion (postQuestion st q).1 q.id = some q ∧
    q ∈ listAll (postQuestion st q).1 := by
  refine ⟨rfl, ?_, ?_⟩
  · simpa [postQuestion, addQuestion, getQuestion] using mapLookup_insert_self q.id q st
  · exact mem_listAll_of_lookup q.id q _
      (by simpa [postQuestion, addQuestion, getQuestion] using mapLookup_insert_self q.id q st)

/-- Claim C2, counterexample to the claim as stated: with `"1"` already present,
`add_question` of a second record with id `"1"` succeeds (200 "Question added")
and replaces the existing record instead of failing with DuplicateIdentifier. -/
theorem insert_overwrites_duplicate_id :
    (postQuestion [(⟨"1"⟩, ⟨⟨"1"⟩, "old title", "old content", none⟩)]
        ⟨⟨"1"⟩, "new title", "new content", none⟩).2 = .resp 200 (.text "Question added") ∧
    getQuestion (postQuestion [(⟨"1"⟩, ⟨⟨"1"⟩, "old title", "old content", none⟩)]
        ⟨⟨"1"⟩, "new title", "new content", none⟩).1 ⟨"1"⟩
      = some ⟨⟨"1"⟩, "new title", "new content", none⟩ ∧
    (⟨⟨"1"⟩, "new title", "new content", none⟩ : Question)
      ≠ ⟨⟨"1"⟩, "old title", "old content", none⟩ := by
  decide

theorem dbGetQuestion_append_of_none (i : Int) (r : QuestionD) (hr : r.id = i) :
    ∀ db : Db, dbGetQuestion db i = none → dbGetQuestion (db ++ [r]) i = some r
  | [], _ => by simp [dbGetQuestion, hr]
  | x :: rest, h => by
    by_cases hx : x.id = i
    · simp [dbGetQuestion, hx] at h
    · have h' : dbGetQuestion rest i = none := by simpa [dbGetQuestion, hx] using h
      simpa [dbGetQuestion, hx] using dbGetQuestion_append_of_none i r hr rest h'

/-- Claim C3 (amended): in the in-memory evolution (caller-supplied identifiers),
after an insert of a record with a valid non-empty id `i`, `get(i)` returns the
record unchanged in every field. In the database-backed evolution the INSERT
discards the caller-supplied id, so the record becomes visible — unchanged in its
title, content and tags — only under the store-assigned serial id (fresh in the
table), not under the id it was submitted with. -/
theorem insert_then_get_returns_record (st : Store) (q : Question)
    (s : DbState) (qd : QuestionD)
    (h : q.id.val ≠ "") (hfresh : dbGetQuestion s.rows s.nextId = none) :
    getQuestion (addQuestion st q) q.id = some q ∧
    dbGetQuestion (dbAddQuestion s qd).rows s.nextId
      = some (QuestionD.mk s.nextId qd.title qd.content qd.tags) := by
  refine ⟨?_, ?_⟩
  · simpa [addQuestion, getQuestion] using mapLookup_insert_self q.id q st
  · exact dbGetQuestion_append_of_none s.nextId _ rfl s.rows hfresh

theorem insert_then_get_returns_record_witness :
    getQuestion (addQuestion [] ⟨⟨"1"⟩, "what is rust", "tell me", none⟩) ⟨"1"⟩
      = some ⟨⟨"1"⟩, "what is rust", "tell me", none⟩ ∧
    dbGetQuestion (dbAddQuestion ⟨[], 1⟩ ⟨5, "t", "c", none⟩).rows 1
      = some (QuestionD.mk 1 "t" "c" none) :=
  insert_then_get_returns_record [] ⟨⟨"1"⟩, "what is rust", "tell me", none⟩
    ⟨[], 1⟩ ⟨5, "t", "c", none⟩ (by decide) rfl

/-- Claim C3, counterexample to the claim as stated: the claim also covers the
backend evolution, whose INSERT names only title, content and tags. Inserting a
record with the valid caller-supplied id 5 into a fresh table succeeds but stores
the row under the store-assigned id 1, and the immediately following `get(5)`
fails with not-found instead of returning the inserted record unchanged. -/
theorem backend_insert_discards_caller_id :
    dbGetQuestion (dbAddQuestion ⟨[], 1⟩ ⟨5, "t", "c", none⟩).rows 5 = none ∧
    dbGetQuestion (dbAddQuestion ⟨[], 1⟩ ⟨5, "t", "c", none⟩).rows 1
      = some ⟨1, "t", "c", none⟩ := by
  decide

/-- Claim C4: the claim (and spec §7) say handlers never panic on a not-found or
validation condition, but the cited code does panic: `delete_question` and
`get_answers` in `src/src/api.rs` unwrap a missing id parameter, and
`get_questions` in `RustBookCode` unwraps the parse of a stored identifier. -/
theorem handlers_panic_on_missing_id_param :
    (∀ db : Db, deleteQuestionApi db none = (db, .panic)) ∧
    (∀ t : AnswerTable, getAnswersApi t none = .panic) ∧
    getQuestionsRBC [(⟨"x"⟩, ⟨⟨"x"⟩, "t", "c", none⟩)] (some "1") (some "2") = .panic := by
  refine ⟨fun db => rfl, fun t => rfl, by decide⟩

/-- Claim C5: operations on an absent identifier fail with not-found and leave the
store unchanged, in both the in-memory handlers and the database-backed delete;
and a delete is never silently repeatable: after any delete of `i`, the id is
absent and a second delete answers 404. -/
theorem absent_id_operations_fail_not_found (st : Store) (i : QuestionId) (r : Question)
    (db : Db) (ip : Int)
    (h : getQuestion st i = none) (hdb : dbGetQuestion db ip = none) :
    getQuestionHandler st (some i.val) = .resp 404 (.text questionNotFoundMsg) ∧
    putQuestion st (Question.mk i r.title r.content r.tags)
      = (st, .resp 404 (.text questionNotFoundMsg)) ∧
    deleteQuestionHandler st (some i.val) = (st, .resp 404 (.text questionNotFoundMsg)) ∧
    deleteQuestionApi db (some ip) = (db, .resp 404 (.text questionNotFoundMsg)) ∧
    (∀ st₀ : Store,
      getQuestion (deleteQuestionHandler st₀ (some i.val)).1 i = none ∧
      deleteQuestionHandler (deleteQuestionHandler st₀ (some i.val)).1 (some i.val)
        = ((deleteQuestionHandler st₀ (some i.val)).1, .resp 404 (.text questionNotFoundMsg))) := by
  refine ⟨?_, ?_, ?_, ?_, ?_⟩
  · simp [getQuestionHandler, h]
  · simp [putQuestion, h]
  · simp [deleteQuestionHandler, h]
  · simp [deleteQuestionApi, hdb]
  · intro st₀
    have hafter : getQuestion (deleteQuestionHandler st₀ (some i.val)).1 i = none := by
      cases hq : getQuestion st₀ (⟨i.val⟩ : QuestionId) with
      | some q =>
        simp only [deleteQuestionHandler, hq]
        exact mapLookup_remove_self i st₀
      | none =>
        simp only [deleteQuestionHandler, hq]
    refine ⟨hafter, ?_⟩
    generalize (deleteQuestionHandler st₀ (some i.val)).1 = st₁ at hafter
    have hafter2 : getQuestion st₁ (⟨i.val⟩ : QuestionId) = none := hafter
    simp [deleteQuestionHandler, hafter2]

theorem absent_id_operations_fail_not_found_witness :
    getQuestionHandler [] (some "7") = .resp 404 (.text questionNotFoundMsg) ∧
    putQuestion [] (Question.mk ⟨"7"⟩ "t" "c" none)
      = ([], .resp 404 (.text questionNotFoundMsg)) ∧
    deleteQuestionHandler [] (some "7") = ([], .resp 404 (.text questionNotFoundMsg)) ∧
    deleteQuestionApi [] (some 7) = ([], .resp 404 (.text questionNotFoundMsg)) ∧
    (∀ st₀ : Store,
      getQuestion (deleteQuestionHandler st₀ (some "7")).1 ⟨"7"⟩ = none ∧
      deleteQuestionHandler (deleteQuestionHandler st₀ (some "7")).1 (some "7")
        = ((deleteQuestionHandler st₀ (some "7")).1, .resp 404 (.text questionNotFoundMsg))) :=
  absent_id_operations_fail_not_found [] ⟨"7"⟩ ⟨⟨"7"⟩, "t", "c", none⟩ [] 7
    (by decide) (by decide)

/-- Claim C10: every in-memory operation preserves the key-consistency invariant —
if every stored record is keyed by its own id, this still holds after
`add_question` (via `post_question`), the update done by `put_question`, and
`delete_question`: add and update always key the record by the id it carries. -/
theorem operations_preserve_key_consistency (st : Store) (q : Question)
    (idp : Option String) (h : KeyConsistent st) :
    KeyConsistent (postQuestion st q).1 ∧
    KeyConsistent (putQuestion st q).1 ∧
    KeyConsistent (deleteQuestionHandler st idp).1 := by
  refine ⟨?_, ?_, ?_⟩
  · exact keyConsistent_mapInsert st q.id q h rfl
  · cases hq : getQuestion st q.id with
    | some q0 =>
      simp only [putQuestion, hq]
      exact keyConsistent_mapInsert st q.id q h rfl
    | none => simpa [putQuestion, hq] using h
  · cases idp with
    | none => simpa [deleteQuestionHandler] using h
    | some i =>
      cases hq : getQuestion st (⟨i⟩ : QuestionId) with
      | some q0 =>
        simp only [deleteQuestionHandler, hq]
        exact keyConsistent_mapRemove st ⟨i⟩ h
      | none => simpa [deleteQuestionHandler, hq] using h

theorem operations_preserve_key_consistency_witness :
    KeyConsistent (postQuestion [(⟨"1"⟩, ⟨⟨"1"⟩, "t", "c", none⟩)]
      ⟨⟨"2"⟩, "t2", "c2", none⟩).1 ∧
    KeyConsistent (putQuestion [(⟨"1"⟩, ⟨⟨"1"⟩, "t", "c", none⟩)]
      ⟨⟨"2"⟩, "t2", "c2", none⟩).1 ∧
    KeyConsistent (deleteQuestionHandler [(⟨"1"⟩, ⟨⟨"1"⟩, "t", "c", none⟩)] (some "1")).1 :=
  operations_preserve_key_consistency [(⟨"1"⟩, ⟨⟨"1"⟩, "t", "c", none⟩)]
    ⟨⟨"2"⟩, "t2", "c2", none⟩ (some "1") (by unfold KeyConsistent; decide)

theorem dbGetQuestion_update_self (i : Int) (q : QuestionD) :
    ∀ db : Db, (dbGetQuestion db i).isSome = true →
    dbGetQuestion (dbUpdateQuestion db i q) i
      = some (QuestionD.mk i q.title q.content q.tags)
  | [], h => by simp [dbGetQuestion] at h
  | r :: rest, h => by
    by_cases hr : r.id = i
    · simp [dbGetQuestion, dbUpdateQuestion, hr]
    · have h' : (dbGetQuestion rest i).isSome = true := by
        simpa [dbGetQuestion, hr] using h
      simpa [dbGetQuestion, dbUpdateQuestion, hr] using dbGetQuestion_update_self i q rest h'

theorem dbGetQuestion_map_update_ne (i j : Int) (q : QuestionD) (hij : ¬i = j) :
    ∀ db : Db,
      dbGetQuestion (db.map (fun r =>
        if r.id = i then QuestionD.mk r.id q.title q.content q.tags else r)) j
      = dbGetQuestion db j
  | [] => by simp [dbGetQuestion]
  | r :: rest => by
    by_cases hr : r.id = i
    · simp [dbGetQuestion, hr, hij, dbGetQuestion_map_update_ne i j q hij rest]
    · simp [dbGetQuestion, hr, dbGetQuestion_map_update_ne i j q hij rest]

theorem dbGetQuestion_update_ne (i j : Int) (q : QuestionD) (hj : j ≠ i) (db : Db) :
    dbGetQuestion (dbUpdateQuestion db i q) j = dbGetQuestion db j := by
  have hij : ¬i = j := fun hh => hj hh.symm
  simpa [dbUpdateQuestion] using dbGetQuestion_map_update_ne i j q hij db

/-- Claim C6: for an identifier present in the collection, `put_question`
(`src/src/api.rs`) replaces the entire stored record with the one built from the
request body — a subsequent get of that id returns exactly the supplied title,
content and tags (whole-record replace, no merge with the old values), and every
other identifier is untouched. -/
theorem update_replaces_whole_record (db : Db) (i : Int) (uq : UpdateQuestion)
    (q₀ : QuestionD) (h : dbGetQuestion db i = some q₀) :
    (putQuestionApi db (some i) uq).2 = .resp 200 (.text "Question updated") ∧
    dbGetQuestion (putQuestionApi db (some i) uq).1 i
      = some (QuestionD.mk i uq.title uq.content uq.tags) ∧
    (∀ j : Int, j ≠ i →
      dbGetQuestion (putQuestionApi db (some i) uq).1 j = dbGetQuestion db j) := by
  refine ⟨?_, ?_, ?_⟩
  · simp [putQuestionApi, h]
  · simp only [putQuestionApi, h]
    exact dbGetQuestion_update_self i (QuestionD.mk i uq.title uq.content uq.tags) db
      (by simp [h])
  · intro j hj
    simp only [putQuestionApi, h]
    exact dbGetQuestion_update_ne i j (QuestionD.mk i uq.title uq.content uq.tags) hj db

theorem update_replaces_whole_record_witness :
    (putQuestionApi [⟨1, "old", "old c", none⟩] (some 1)
        ⟨none, "new", "new c", some ["tag"]⟩).2 = .resp 200 (.text "Question updated") ∧
    dbGetQuestion (putQuestionApi [⟨1, "old", "old c", none⟩] (some 1)
        ⟨none, "new", "new c", some ["tag"]⟩).1 1
      = some (QuestionD.mk 1 "new" "new c" (some ["tag"])) ∧
    (∀ j : Int, j ≠ 1 →
      dbGetQuestion (putQuestionApi [⟨1, "old", "old c", none⟩] (some 1)
        ⟨none, "new", "new c", some ["tag"]⟩).1 j
        = dbGetQuestion [⟨1, "old", "old c", none⟩] j) :=
  update_replaces_whole_record [⟨1, "old", "old c", none⟩] 1
    ⟨none, "new", "new c", some ["tag"]⟩ ⟨1, "old", "old c", none⟩ (by decide)

/-- Claim C7 (amended): with neither bound supplied, all records are returned; with
exactly one bound supplied the request fails with HTTP 400 and no records. In the
database-backed handler the body is always "Missing parameter"; in the string-id
evolution the body is "Missing parameter" unless the supplied start bound fails
integer parsing, in which case the body is the parse-error message (still 400). -/
theorem range_mode_requires_both_bounds (st : Store) (db : Db) (sv ev : String)
    (si ei : Int) :
    getQuestionsRBC st none none = .resp 200 (.questionMap st) ∧
    getQuestionsRBC st none (some ev) = .resp 400 (.text missingParameterMsg) ∧
    getQuestionsRBC st (some sv) none =
      (match parseUsize sv with
        | .ok _ => .resp 400 (.text missingParameterMsg)
        | .error e => .resp 400 (.text (parseErrorMsg e))) ∧
    getQuestionsApi db none none = .resp 200 (.questionList db) ∧
    getQuestionsApi db none (some ei) = .resp 400 (.text missingParameterMsg) ∧
    getQuestionsApi db (some si) none = .resp 400 (.text missingParameterMsg) := by
  refine ⟨rfl, rfl, ?_, rfl, rfl, rfl⟩
  cases hp : parseUsize sv with
  | ok n => simp [getQuestionsRBC, hp]
  | error e => simp [getQuestionsRBC, hp]

/-- Claim C7, counterexample to the claim as stated: `start` supplied but
unparsable and `end` absent is a request with exactly one bound supplied, yet the
body is the parse-error message, not "Missing parameter". -/
theorem unparsable_start_missing_end_gives_parse_error :
    getQuestionsRBC [] (some "abc") none
      = .resp 400 (.text "Cannot parse parameter: invalid digit found in string") ∧
    getQuestionsRBC [] (some "abc") none ≠ .resp 400 (.text missingParameterMsg) := by
  decide

theorem parseI32Digits_bounds (l : List Char) (neg : Bool) (n : Int)
    (h : parseI32Digits l neg = .ok n) : i32Min ≤ n ∧ n ≤ i32Max := by
  unfold parseI32Digits at h
  split_ifs at h <;> simp_all [i32Min, i32Max] <;> omega

theorem parseI32_bounds (s : String) (n : Int) (h : parseI32 s = .ok n) :
    i32Min ≤ n ∧ n ≤ i32Max := by
  unfold parseI32 at h
  split at h
  · exact absurd h (by simp)
  · split_ifs at h
    · exact parseI32Digits_bounds _ false n h
    · exact parseI32Digits_bounds _ true n h
    · exact parseI32Digits_bounds _ false n h

/-- Claim C8 (amended): string-form identifier construction succeeds exactly on
non-empty input and returns the string unchanged; integer-form construction
(`backend`) succeeds exactly when the input parses as a 32-bit signed integer —
the value is only guaranteed to lie in the i32 range, and negative identifiers
are accepted: non-negativity is never checked. -/
theorem question_id_construction_characterized (s : String) :
    (exceptOk (questionIdFromStr s) = !s.isEmpty) ∧
    (match questionIdFromStr s with
      | .ok i => i.val = s
      | .error _ => True) ∧
    (match questionIdFromStrI32 s with
      | .ok i => i32Min ≤ i.val ∧ i.val ≤ i32Max
      | .error _ => True) := by
  refine ⟨?_, ?_, ?_⟩
  · cases he : s.isEmpty <;> simp [questionIdFromStr, he, exceptOk]
  · cases he : s.isEmpty <;> simp [questionIdFromStr, he]
  · cases hp : parseI32 s with
    | ok n => simpa [questionIdFromStrI32, hp] using parseI32_bounds s n hp
    | error e => simp [questionIdFromStrI32, hp]

/-- Claim C8, counterexample to the claim as stated: the integer-form constructor
accepts `"-1"` and yields the negative identifier `-1`, violating the
non-negativity invariant the claim says construction enforces. -/
theorem question_id_accepts_negative_i32 :
    questionIdFromStrI32 "-1" = .ok ⟨-1⟩ ∧ ((-1 : Int) < 0) :=
  ⟨rfl, by decide⟩

theorem mapInsert_fresh (k : QuestionId) (v : Question) :
    ∀ st : Store, k ∉ st.map Prod.fst → mapInsert k v st = st ++ [(k, v)]
  | [], _ => rfl
  | (k', v') :: rest, h => by
    have hk : ¬k' = k := by
      intro hh
      exact h (by simp [hh])
    simp [mapInsert, hk, mapInsert_fresh k v rest (fun hm => h (by simp [hm]))]

theorem rangeLoop_eq_filter (sN eN : Nat) :
    ∀ (st acc : Store),
      (∀ p ∈ st, exceptOk (parseUsize p.1.val) = true) →
      (st.map Prod.fst).Nodup →
      (∀ k ∈ st.map Prod.fst, k ∉ acc.map Prod.fst) →
      rangeLoop sN eN acc st = some (acc ++ st.filter (idInRange sN eN))
  | [], acc, _, _, _ => by simp [rangeLoop]
  | (id, q) :: rest, acc, hp, hnd, hdisj => by
    have hok := hp (id, q) (by simp)
    cases hparse : parseUsize id.val with
    | error e => simp [hparse, exceptOk] at hok
    | ok n =>
      have hid : id ∉ acc.map Prod.fst := hdisj id (by simp)
      have hcons : id ∉ List.map Prod.fst rest ∧ (List.map Prod.fst rest).Nodup := by
        have h2 := hnd
        rw [List.map_cons, List.nodup_cons] at h2
        exact h2
      have hprest : ∀ p ∈ rest, exceptOk (parseUsize p.1.val) = true :=
        fun p hmem => hp p (by simp [hmem])
      by_cases hin : sN ≤ n ∧ n ≤ eN
      · have hdisj2 : ∀ k ∈ rest.map Prod.fst, k ∉ (mapInsert id q acc).map Prod.fst := by
          intro k hk
          rw [mapInsert_fresh id q acc hid]
          simp only [List.map_append, List.mem_append]
          rintro (hka | hkid)
          · exact hdisj k (by simp [hk]) hka
          · simp at hkid
            exact hcons.1 (hkid ▸ hk)
        have hrec := rangeLoop_eq_filter sN eN rest (mapInsert id q acc) hprest hcons.2 hdisj2
        simp only [rangeLoop, hparse, if_pos hin, hrec]
        rw [mapInsert_fresh id q acc hid]
        simp [idInRange, hparse, hin, List.filter_cons]
      · have hrec := rangeLoop_eq_filter sN eN rest acc hprest hcons.2
          (fun k hk => hdisj k (by simp [hk]))
        simp only [rangeLoop, hparse, if_neg hin, hrec]
        simp [idInRange, hparse, hin, List.filter_cons]

/-- Claim C1 (amended): on any store whose stored identifiers all parse as unsigned
integers (and with the map's keys pairwise distinct, as in a `HashMap`),
`GET /questions?start=&end=` returns exactly the entries of the store whose numeric
id lies in the inclusive range, the empty map when no identifier qualifies, and the
returned set is independent of insertion order (any permutation of the store yields
a permutation of the same result). The database-backed evolution compares native
integer ids the same way. On a store containing an identifier that does not parse,
the string-id evolution panics instead (see the counterexample). -/
theorem list_range_filters_numeric_range (st : Store) (sv ev : String) (sN eN : Nat)
    (hp : ∀ p ∈ st, exceptOk (parseUsize p.1.val) = true)
    (hnd : (st.map Prod.fst).Nodup)
    (hs : parseUsize sv = .ok sN) (he : parseUsize ev = .ok eN) (hle : sN ≤ eN) :
    getQuestionsRBC st (some sv) (some ev)
      = .resp 200 (.questionMap (st.filter (idInRange sN eN))) ∧
    ((∀ p ∈ st, idInRange sN eN p = false) →
      getQuestionsRBC st (some sv) (some ev) = .resp 200 (.questionMap [])) ∧
    (∀ st' : Store, st.Perm st' →
      getQuestionsRBC st' (some sv) (some ev)
        = .resp 200 (.questionMap (st'.filter (idInRange sN eN))) ∧
      (st'.filter (idInRange sN eN)).Perm (st.filter (idInRange sN eN))) ∧
    (∀ (db : Db) (si ei : Int),
      getQuestionsApi db (some si) (some ei)
        = .resp 200 (.questionList (db.filter (dIdInRange si ei)))) := by
  have hmain : ∀ st₀ : Store,
      (∀ p ∈ st₀, exceptOk (parseUsize p.1.val) = true) →
      (st₀.map Prod.fst).Nodup →
      getQuestionsRBC st₀ (some sv) (some ev)
        = .resp 200 (.questionMap (st₀.filter (idInRange sN eN))) := by
    intro st₀ hp₀ hnd₀
    have hloop := rangeLoop_eq_filter sN eN st₀ [] hp₀ hnd₀ (by simp)
    simp [getQuestionsRBC, hs, he, hloop]
  refine ⟨hmain st hp hnd, ?_, ?_, ?_⟩
  · intro hall
    have hnil : st.filter (idInRange sN eN) = [] :=
      List.filter_eq_nil_iff.mpr (fun p hmem => by simp [hall p hmem])
    rw [hmain st hp hnd, hnil]
  · intro st' hperm
    have hp' : ∀ p ∈ st', exceptOk (parseUsize p.1.val) = true :=
      fun p hmem => hp p (hperm.symm.subset hmem)
    have hnd' : (st'.map Prod.fst).Nodup := ((hperm.map Prod.fst).nodup_iff).mp hnd
    exact ⟨hmain st' hp' hnd', (hperm.filter (idInRange sN eN)).symm⟩
  · intro db si ei
    rfl

theorem list_range_filters_numeric_range_witness :
    getQuestionsRBC [(⟨"1"⟩, ⟨⟨"1"⟩, "t1", "c1", none⟩), (⟨"5"⟩, ⟨⟨"5"⟩, "t5", "c5", none⟩)]
        (some "1") (some "3")
      = .resp 200 (.questionMap
          (([(⟨"1"⟩, ⟨⟨"1"⟩, "t1", "c1", none⟩), (⟨"5"⟩, ⟨⟨"5"⟩, "t5", "c5", none⟩)] : Store).filter
            (idInRange 1 3))) :=
  (list_range_filters_numeric_range
    [(⟨"1"⟩, ⟨⟨"1"⟩, "t1", "c1", none⟩), (⟨"5"⟩, ⟨⟨"5"⟩, "t5", "c5", none⟩)]
    "1" "3" 1 3 (by decide) (by decide) rfl rfl (by decide)).1

/-- Claim C1, counterexample to the claim as stated: the claim quantifies over every
store state, but on a store holding the (reachable, `POST`-insertable) identifier
`"abc"` the range request panics on `id.0.parse::<usize>().unwrap()` instead of
returning the qualifying subset (here empty). -/
theorem list_range_panics_on_unparsable_stored_id :
    getQuestionsRBC [(⟨"abc"⟩, ⟨⟨"abc"⟩, "t", "c", none⟩)] (some "1") (some "3") = .panic ∧
    getQuestionsRBC [(⟨"abc"⟩, ⟨⟨"abc"⟩, "t", "c", none⟩)] (some "1") (some "3")
      ≠ .resp 200 (.questionMap
          (([(⟨"abc"⟩, ⟨⟨"abc"⟩, "t", "c", none⟩)] : Store).filter (idInRange 1 3))) := by
  decide

end RustWebDev
